import Mathlib

/-!
Shallow embedding of `src/daily_rotate_file.rs` (crate
`winston_daily_rotate_file_rs`), a daily-rotating log-file sink, together
with proofs about its rotation policy, unique-file allocation, filename
derivation, locking structure and error surface.

Modelling conventions:
* A filesystem path is its list of components, relative to the working
  directory; the default directory `Path::new(".")` is the empty list.
* The filesystem is an explicit value: the set of existing paths plus the
  paths on which a create attempt fails with a non-`AlreadyExists` error.
* `chrono` formatting is abstracted as a function argument
  `fmt : String → Int → String` (pattern and timestamp in the displayed
  timezone); conversion to local time adds the offset `loff` to a UTC
  timestamp. Timestamps are integers.
* Rust panics (`expect` / `unwrap`) surface as the `Res.panic` outcome;
  `eprintln!` diagnostics are returned as a list of strings.
-/

namespace DRF

/-- A filesystem path, as its list of components (all relative to the working
directory). -/
abbrev FsPath := List String

/-- Rust `Path::file_stem` and `Path::extension` of a single file-name
component: split at the last dot, except that a dot in leading position does
not split (so a lone leading dot yields no extension). A name with no
splitting dot has extension `""`, matching the source's
`extension().and_then(|e| e.to_str()).unwrap_or("")`. -/
def splitExt (s : String) : String × String :=
  let cs := s.data
  match cs.reverse.findIdx? (fun c => c == '.') with
  | none => (s, "")
  | some i =>
    let pos := cs.length - 1 - i
    if pos = 0 then (s, "")
    else (String.mk (cs.take pos), String.mk (cs.drop (pos + 1)))

/-- Rust `PathBuf::set_file_name`: replace the final component. -/
def setFileName (p : FsPath) (name : String) : FsPath :=
  if p.isEmpty then [name] else p.dropLast ++ [name]

/-- Rust `Path::file_name` as a string: the final component. -/
def fileName? (p : FsPath) : Option String := p.getLast?

/-- The filesystem: the set of existing file paths, plus the paths on which
any create attempt fails with a non-`AlreadyExists` I/O error. -/
structure FS where
  files : List FsPath
  badPaths : List FsPath
deriving DecidableEq

/-- The two kinds of I/O error the allocator distinguishes. -/
inductive IOErr where
  | alreadyExists : IOErr
  | other : IOErr
deriving DecidableEq

deriving instance DecidableEq for Except

/-- Rust `OpenOptions::new().write(true).create_new(true).open(path)`: fails
with `AlreadyExists` when the path exists, with another error on a bad path,
and otherwise creates the file. -/
def createNew (p : FsPath) (fs : FS) : Except IOErr FS :=
  if p ∈ fs.badPaths then .error .other
  else if p ∈ fs.files then .error .alreadyExists
  else .ok { fs with files := p :: fs.files }

/-- The disambiguated file name `create_unique_file` builds at a nonzero
counter: `file_stem` (or `"log"` when there is none) followed by `_counter`,
with the extension, when nonempty, reattached after it. -/
def suffixName (filename : FsPath) (counter : Nat) : String :=
  let base_name := match fileName? filename with
    | none => "log"
    | some last => (splitExt last).1
  let ext := match fileName? filename with
    | none => ""
    | some last => (splitExt last).2
  if ext = "" then base_name ++ "_" ++ toString counter
  else base_name ++ "_" ++ toString counter ++ "." ++ ext

/-- The path attempted by `create_unique_file` at a given counter: counter 0
tries `filename` itself, NOT joined onto `log_dir`; counter `k ≥ 1` replaces
the final component by the suffixed name and joins the result onto
`log_dir`. -/
def uniqueCandidate (log_dir filename : FsPath) (counter : Nat) : FsPath :=
  if counter = 0 then filename
  else log_dir ++ setFileName filename (suffixName filename counter)

/-- The retry loop of `create_unique_file`, with explicit fuel standing for
the source's unbounded loop: each `AlreadyExists` failure increments the
counter and retries; any other error is returned. -/
def cufLoop (log_dir filename : FsPath) : Nat → Nat → FS → Except IOErr (FsPath × FS)
  | _, 0, _ => .error .other
  | counter, fuel + 1, fs =>
    let cand := uniqueCandidate log_dir filename counter
    match createNew cand fs with
    | .ok fs' => .ok (cand, fs')
    | .error .alreadyExists => cufLoop log_dir filename (counter + 1) fuel fs
    | .error .other => .error .other

/-- Rust `create_unique_file`: run the retry loop from counter 0. The fuel
`fs.files.length + 1` covers every possible `AlreadyExists` collision on the
finitely many existing files. -/
def create_unique_file (log_dir filename : FsPath) (fs : FS) :
    Except IOErr (FsPath × FS) :=
  cufLoop log_dir filename 0 (fs.files.length + 1) fs

/-- Rust `get_filename`: format the date with the pattern — converted to
local time first unless `utc` — and append it after a dot to the base path's
final component (`"log"` when the base path has none). -/
def get_filename (fmt : String → Int → String) (loff : Int)
    (base_path : FsPath) (date : Int) (pattern : String) (utc : Bool) : FsPath :=
  let date_str := if utc then fmt pattern date else fmt pattern (date + loff)
  let original_filename := (fileName? base_path).getD "log"
  setFileName base_path (original_filename ++ "." ++ date_str)

/-- The configuration record `DailyRotateFileOptions`; the `format` field is
an opaque external formatter, modelled as a unit. -/
structure DailyRotateFileOptions where
  level : Option String
  format : Option Unit
  filename : FsPath
  date_pattern : String
  max_files : Option Nat
  max_size : Option Nat
  dirname : Option FsPath
  zipped_archive : Bool
  utc : Bool
deriving DecidableEq

/-- Rust `create_file`: derive the dated filename, take the configured
directory (default `"."`, the working directory, i.e. the empty path), create
the parent directory of their join (directory creation is modelled as always
succeeding), then allocate a unique file. Note the join `log_dir.join(&filename)`
is used only for parent-directory creation; the allocator receives `log_dir`
and `filename` separately. -/
def create_file (fmt : String → Int → String) (loff : Int)
    (options : DailyRotateFileOptions) (date : Int) (fs : FS) :
    Except IOErr (FsPath × FS) :=
  let filename := get_filename fmt loff options.filename date options.date_pattern options.utc
  let log_dir := options.dirname.getD []
  create_unique_file log_dir filename fs

/-- Outcome of an operation that may panic (`expect` / `unwrap`). -/
inductive Res (α : Type) where
  | ok : α → Res α
  | panic : String → Res α
deriving DecidableEq

/-- State of one buffered file handle: the lines already written through to
the OS file, the lines sitting in the `BufWriter` buffer, and flags for
whether this handle's flush, metadata and write operations fail. -/
structure FileState where
  flushedLines : List String
  bufLines : List String
  flushFails : Bool
  metadataFails : Bool
  writeFails : Bool
deriving DecidableEq

/-- A freshly created, empty, healthy handle. -/
def FileState.fresh : FileState :=
  { flushedLines := [], bufLines := [], flushFails := false,
    metadataFails := false, writeFails := false }

/-- Byte size of a list of log lines as written by `writeln!`: each line plus
its line terminator. -/
def linesSize (ls : List String) : Nat := (ls.map (fun s => s.length + 1)).sum

/-- The active file: the path it was created at and its buffered state. -/
structure ActiveFile where
  path : FsPath
  buf : FileState
deriving DecidableEq

/-- The mutable state of a `DailyRotateFile`: the two separate mutexes of the
source (`file` and `last_rotation`) appear as two independent poisoning
flags, plus the active handle, the stored rotation timestamp, and the
contents of handles dropped at past rotations. -/
structure SinkState where
  filePoisoned : Bool
  rotPoisoned : Bool
  active : ActiveFile
  lastRotation : Int
  closed : List (FsPath × List String)
deriving DecidableEq

/-- Rust `get_file_size`: lock the file (`.lock().ok()` turns a poisoned lock
into `None`), flush (`.flush().ok()?`, failure gives `None`), then read the
metadata length; every failure collapses to 0 through `unwrap_or(0)`. The
flush side effect persists, so the new state is returned too. -/
def get_file_size (s : SinkState) : Nat × SinkState :=
  if s.filePoisoned then (0, s)
  else if s.active.buf.flushFails then (0, s)
  else
    let f := s.active.buf
    let f' := { f with flushedLines := f.flushedLines ++ f.bufLines, bufLines := [] }
    let s' := { s with active := { s.active with buf := f' } }
    if f.metadataFails then (0, s')
    else (linesSize f'.flushedLines, s')

/-- The rotation-bucket string of a UTC timestamp: the configured pattern
applied in UTC or local time according to the `utc` option. -/
def bucketStr (fmt : String → Int → String) (loff : Int)
    (o : DailyRotateFileOptions) (t : Int) : String :=
  if o.utc then fmt o.date_pattern t else fmt o.date_pattern (t + loff)

/-- Rust `should_rotate`: compare the bucket string for now against the one
of `last_rotation` (whose lock is `unwrap`ped, so a poisoned rotation lock
panics); on mismatch signal rotation at once, otherwise, when a max size is
configured, probe the file size and signal when size plus the pending entry
reaches it. -/
def should_rotate (fmt : String → Int → String) (loff : Int)
    (o : DailyRotateFileOptions) (s : SinkState) (now : Int)
    (new_entry_size : Nat) : Res (Bool × SinkState) :=
  let now_str := bucketStr fmt loff o now
  if s.rotPoisoned then .panic "lock poisoned"
  else
    let last_str := bucketStr fmt loff o s.lastRotation
    if last_str ≠ now_str then .ok (true, s)
    else match o.max_size with
      | none => .ok (false, s)
      | some max_size =>
        let pr := get_file_size s
        .ok (decide (pr.1 + new_entry_size ≥ max_size), pr.2)

/-- Contents of the old file when its `BufWriter` is dropped at rotation: the
drop flushes the buffer into the file, ignoring errors. -/
def closeFile (f : FileState) : List String :=
  if f.flushFails then f.flushedLines else f.flushedLines ++ f.bufLines

/-- Rust `rotate`: create the new file (`expect` panics on failure), lock the
file mutex (`unwrap` panics when poisoned) and swap in a fresh `BufWriter` —
the dropped writer flushes its buffer into the old file — then lock and
update `last_rotation` (`unwrap` panics when poisoned). Nothing is ever
removed from the filesystem. -/
def rotate (fmt : String → Int → String) (loff : Int)
    (o : DailyRotateFileOptions) (s : SinkState) (fs : FS) (now : Int) :
    Res (SinkState × FS) :=
  match create_file fmt loff o now fs with
  | .error _ => .panic "Failed to rotate log file"
  | .ok (p, fs') =>
    if s.filePoisoned then .panic "lock poisoned"
    else if s.rotPoisoned then .panic "lock poisoned"
    else .ok ({ s with
                  active := { path := p, buf := FileState.fresh },
                  closed := s.closed ++ [(s.active.path, closeFile s.active.buf)],
                  lastRotation := now }, fs')

/-- Rust `Transport::log`: measure the rendered entry (`message` plus a line
terminator), consult `should_rotate` (at time `now1`) and rotate (at time
`now2`) when signalled, then take the file lock — a poisoned lock emits
"Failed to acquire file lock" on stderr and drops the entry, a failed
`writeln!` emits "Failed to write log" and drops the entry — and append the
message to the buffer. The returned list is the call's stderr diagnostics;
the function itself returns no error to the caller. -/
def log (fmt : String → Int → String) (loff : Int)
    (o : DailyRotateFileOptions) (s : SinkState) (fs : FS)
    (now1 now2 : Int) (message : String) :
    Res (SinkState × FS × List String) :=
  let entry_size := (message ++ "\n").length
  match should_rotate fmt loff o s now1 entry_size with
  | .panic m => .panic m
  | .ok (doRot, s1) =>
    let afterRot : Res (SinkState × FS) :=
      if doRot then rotate fmt loff o s1 fs now2 else .ok (s1, fs)
    match afterRot with
    | .panic m => .panic m
    | .ok (s2, fs2) =>
      if s2.filePoisoned then .ok (s2, fs2, ["Failed to acquire file lock"])
      else if s2.active.buf.writeFails then .ok (s2, fs2, ["Failed to write log"])
      else
        let f := s2.active.buf
        let f' := { f with bufLines := f.bufLines ++ [message] }
        .ok ({ s2 with active := { s2.active with buf := f' } }, fs2, [])

/-- Rust `Transport::flush`: `unwrap` the file lock (panics when poisoned)
and flush, mapping an I/O failure to an explicit `Err` string. -/
def flush (s : SinkState) : Res (SinkState × Except String Unit) :=
  if s.filePoisoned then .panic "lock poisoned"
  else if s.active.buf.flushFails then .ok (s, .error "Failed to flush: io error")
  else
    let f := s.active.buf
    let f' := { f with flushedLines := f.flushedLines ++ f.bufLines, bufLines := [] }
    .ok ({ s with active := { s.active with buf := f' } }, .ok ())

/-- Rust `DailyRotateFile::new`: take the current instant (the UTC and local
branches of the source denote the same instant), create the initial file —
`expect` panics on failure — and initialise both mutexes unpoisoned. -/
def new (fmt : String → Int → String) (loff : Int)
    (options : DailyRotateFileOptions) (fs : FS) (now : Int) :
    Res (SinkState × FS) :=
  match create_file fmt loff options now fs with
  | .error _ => .panic "Failed to create initial log file"
  | .ok (p, fs') =>
    .ok ({ filePoisoned := false, rotPoisoned := false,
           active := { path := p, buf := FileState.fresh },
           lastRotation := now, closed := [] }, fs')

/-- The builder record, with the defaults of `DailyRotateFileBuilder::new`. -/
structure DailyRotateFileBuilder where
  level : Option String
  format : Option Unit
  filename : Option FsPath
  date_pattern : String
  max_files : Option Nat
  max_size : Option Nat
  dirname : Option FsPath
  zipped_archive : Bool
  utc : Bool
deriving DecidableEq

/-- Rust `DailyRotateFileBuilder::new`: every option unset, date pattern
`"%Y-%m-%d"`, local time. -/
def DailyRotateFileBuilder.new : DailyRotateFileBuilder :=
  { level := none, format := none, filename := none,
    date_pattern := "%Y-%m-%d", max_files := none, max_size := none,
    dirname := none, zipped_archive := false, utc := false }

/-- The option record `build` assembles from the builder and the required
filename. -/
def buildOptions (b : DailyRotateFileBuilder) (filename : FsPath) :
    DailyRotateFileOptions :=
  { level := b.level, format := b.format, filename := filename,
    date_pattern := b.date_pattern, max_files := b.max_files,
    max_size := b.max_size, dirname := b.dirname,
    zipped_archive := b.zipped_archive, utc := b.utc }

/-- Rust `DailyRotateFileBuilder::build`: a missing filename is the explicit
error `"Filename is required"`; otherwise construction runs
`DailyRotateFile::new`, which panics when the initial file cannot be
created. -/
def build (fmt : String → Int → String) (loff : Int)
    (b : DailyRotateFileBuilder) (fs : FS) (now : Int) :
    Res (Except String (SinkState × FS)) :=
  match b.filename with
  | none => .ok (.error "Filename is required")
  | some filename =>
    match new fmt loff (buildOptions b filename) fs now with
    | .panic m => .panic m
    | .ok r => .ok (.ok r)

/-- Whether a `should_rotate` outcome signals rotation: it returned normally
with the decision `true`. -/
def signals (r : Res (Bool × SinkState)) : Bool :=
  match r with
  | .ok (true, _) => true
  | _ => false

namespace Locks

/-!
Interleaving model of the locking structure. The source guards the file
handle and `last_rotation` by two separate `Mutex`es and `Transport::log`
takes them in three separate critical sections — the `should_rotate` check,
the `rotate` swap, and the write — releasing all locks between sections.
Each lock-scoped section is one atomic step here; handles are numbered by
creation order, and bucket values are abstract numbers.
-/

/-- Global state shared by concurrent `log` calls: the number of the active
handle, the bucket value stored in `last_rotation`, and the next fresh
handle number. -/
structure GState where
  fileVer : Nat
  bucketVal : Nat
  nextVer : Nat
deriving DecidableEq

/-- Local state of one thread running `Transport::log`. The program counter
ranges over the three lock-scoped sections: 0 = about to run the rotation
check, 1 = about to rotate or skip, 2 = about to take the file lock and
write, 3 = done. The thread records the handle and bucket its decision
probed, the handle it created when rotating, and the handle it wrote
through. -/
structure TState where
  pc : Nat
  nowBucket : Nat
  sawFile : Nat
  sawBucket : Nat
  willRotate : Bool
  myNewFile : Nat
  wroteTo : Nat
deriving DecidableEq

/-- One atomic step of a thread: each critical section runs without
interleaving, but nothing prevents other threads from running between
sections. -/
def step (g : GState) (t : TState) : GState × TState :=
  match t.pc with
  | 0 =>
    (g, { t with pc := 1, sawFile := g.fileVer, sawBucket := g.bucketVal,
                 willRotate := t.nowBucket != g.bucketVal })
  | 1 =>
    if t.willRotate then
      ({ g with fileVer := g.nextVer, bucketVal := t.nowBucket,
                nextVer := g.nextVer + 1 },
       { t with pc := 2, myNewFile := g.nextVer })
    else (g, { t with pc := 2 })
  | 2 => (g, { t with pc := 3, wroteTo := g.fileVer })
  | _ => (g, t)

/-- A system of two threads each running one `log` call. -/
structure Sys where
  g : GState
  t1 : TState
  t2 : TState
deriving DecidableEq

/-- Run one scheduled step: `false` steps thread 1, `true` steps thread 2. -/
def runStep (s : Sys) (who : Bool) : Sys :=
  if who then
    let p := step s.g s.t2
    { s with g := p.1, t2 := p.2 }
  else
    let p := step s.g s.t1
    { s with g := p.1, t1 := p.2 }

/-- Run a whole schedule. -/
def run (s : Sys) : List Bool → Sys
  | [] => s
  | w :: ws => run (runStep s w) ws

/-- A completed thread's rotation decision is consistent with the handle it
acted on: a rotating thread wrote through the handle it created, and a
non-rotating thread wrote through the handle its decision probed. This is
the consistency the single-lock design would enforce for every
interleaving. -/
def consistent (t : TState) : Bool :=
  if t.willRotate then t.wroteTo == t.myNewFile else t.wroteTo == t.sawFile

/-- A thread about to run `log`, whose wall clock maps to bucket `nb`. -/
def initT (nb : Nat) : TState :=
  { pc := 0, nowBucket := nb, sawFile := 0, sawBucket := 0,
    willRotate := false, myNewFile := 0, wroteTo := 0 }

/-- Two threads over a sink whose active handle 0 was opened for bucket 0. -/
def initSys (nb1 nb2 : Nat) : Sys :=
  { g := { fileVer := 0, bucketVal := 0, nextVer := 1 },
    t1 := initT nb1, t2 := initT nb2 }

/-- The three consecutive steps of one uninterrupted `log` call. -/
def steps3 (g : GState) (t : TState) : GState × TState :=
  let p1 := step g t
  let p2 := step p1.1 p1.2
  step p2.1 p2.2

end Locks

/-!
Shared concrete fixtures for witnesses and counterexamples: an injective
stand-in for the chrono formatter, and small option records, sink states
and filesystems.
-/

/-- A concrete formatter: pattern and timestamp, glued injectively. -/
def fmt0 : String → Int → String := fun p t => p ++ "#" ++ toString t

/-- A minimal option record: base file `test.log`, pattern `"P"`, UTC. -/
def opt0 : DailyRotateFileOptions :=
  { level := none, format := none, filename := ["test.log"],
    date_pattern := "P", max_files := none, max_size := none,
    dirname := none, zipped_archive := false, utc := true }

/-- An empty filesystem. -/
def fs0 : FS := { files := [], badPaths := [] }

/-- A healthy sink whose active file was opened for timestamp `t`. -/
def sink0 (t : Int) : SinkState :=
  { filePoisoned := false, rotPoisoned := false,
    active := { path := ["test.log.P#" ++ toString t], buf := FileState.fresh },
    lastRotation := t, closed := [] }

/-- The options of `sink0` with a retention bound of three files. -/
def optKeep3 : DailyRotateFileOptions := { opt0 with max_files := some 3 }

/-- A filesystem holding five already-rotated files of the sink. -/
def fs5 : FS :=
  { files := [["test.log.P#0"], ["test.log.P#1"], ["test.log.P#2"],
      ["test.log.P#3"], ["test.log.P#4"]], badPaths := [] }

/-- The options of `sink0` with directory `logs` configured. -/
def optLogsDir : DailyRotateFileOptions := { opt0 with dirname := some ["logs"] }

/-- A filesystem on which creating `test.log.P#2` fails with a genuine I/O
error. -/
def fsBad2 : FS := { files := [], badPaths := [["test.log.P#2"]] }

/-!  Helper lemmas about the size probe and the rotation decision. -/

/-- When nothing fails, the size probe reports the flushed size of the whole
content, buffered lines included, because it flushes before measuring. -/
lemma get_file_size_fst (s : SinkState) (hfp : s.filePoisoned = false)
    (hff : s.active.buf.flushFails = false)
    (hmf : s.active.buf.metadataFails = false) :
    (get_file_size s).1 =
      linesSize (s.active.buf.flushedLines ++ s.active.buf.bufLines) := by
  simp [get_file_size, hfp, hff, hmf]

/-- Any failure inside the size probe yields 0. -/
lemma get_file_size_zero (s : SinkState)
    (hfail : s.filePoisoned = true ∨ s.active.buf.flushFails = true ∨
      s.active.buf.metadataFails = true) :
    (get_file_size s).1 = 0 := by
  rcases hfail with h | h | h
  · simp [get_file_size, h]
  · by_cases h2 : s.filePoisoned <;> simp [get_file_size, h, h2]
  · by_cases h2 : s.filePoisoned
    · simp [get_file_size, h2]
    · by_cases h3 : s.active.buf.flushFails <;>
        simp [get_file_size, h, h2, h3]

/-- `signals` reads off the decision of a normal return. -/
lemma signals_ok (b : Bool) (s : SinkState) :
    signals (.ok (b, s)) = b := by cases b <;> rfl

/-- C3: the rotation decision signals rotation iff the bucket string for now
differs from the recorded one, or a max size is configured and the flushed
size of the active file plus the pending entry's size reaches it — the
buffer being flushed before measuring. Stated under a healthy sink: no
poisoned lock, and flush and metadata probes succeed. -/
theorem C3_rotation_decision_iff (fmt : String → Int → String) (loff : Int)
    (o : DailyRotateFileOptions) (s : SinkState) (now : Int) (n : Nat)
    (hrp : s.rotPoisoned = false) (hfp : s.filePoisoned = false)
    (hff : s.active.buf.flushFails = false)
    (hmf : s.active.buf.metadataFails = false) :
    signals (should_rotate fmt loff o s now n) = true ↔
      (bucketStr fmt loff o now ≠ bucketStr fmt loff o s.lastRotation ∨
        ∃ m, o.max_size = some m ∧
          linesSize (s.active.buf.flushedLines ++ s.active.buf.bufLines) + n ≥ m) := by
  unfold should_rotate
  by_cases hb : bucketStr fmt loff o s.lastRotation = bucketStr fmt loff o now
  · cases hms : o.max_size with
    | none =>
      simp [hrp, hb, hms, signals]
    | some m =>
      simp [hrp, hb, hms, signals_ok, get_file_size_fst s hfp hff hmf,
        ge_iff_le]
  · simp [hrp, hb, signals, Ne.symm hb]

/-- C3 witness: on a concrete healthy sink whose bucket changed, the
decision signals rotation. -/
theorem C3_rotation_decision_iff_witness :
    signals (should_rotate fmt0 0 opt0 (sink0 0) 1 0) = true :=
  (C3_rotation_decision_iff fmt0 0 opt0 (sink0 0) 1 0 rfl rfl rfl rfl).mpr
    (Or.inl (by decide))

/-- C10: when the size probe fails — poisoned file lock, failing flush or
failing metadata read — it returns 0, and then, within an unchanged bucket
and a configured max size, rotation is signalled exactly when the pending
entry alone reaches the threshold. -/
theorem C10_size_probe_failure_zero (fmt : String → Int → String) (loff : Int)
    (o : DailyRotateFileOptions) (s : SinkState) (now : Int) (n m : Nat)
    (hrp : s.rotPoisoned = false)
    (hfail : s.filePoisoned = true ∨ s.active.buf.flushFails = true ∨
      s.active.buf.metadataFails = true)
    (hms : o.max_size = some m)
    (hsame : bucketStr fmt loff o s.lastRotation = bucketStr fmt loff o now) :
    (get_file_size s).1 = 0 ∧
      (signals (should_rotate fmt loff o s now n) = true ↔ m ≤ n) := by
  refine ⟨get_file_size_zero s hfail, ?_⟩
  unfold should_rotate
  simp only [hrp, Bool.false_eq_true, if_false, hms]
  rw [if_neg (by simp [hsame])]
  rw [signals_ok, get_file_size_zero s hfail]
  simp [ge_iff_le]

/-- C10 witness: a poisoned file lock makes the probe report 0, and with
max size 5 and bucket unchanged an entry of size 7 alone triggers
rotation. -/
theorem C10_size_probe_failure_zero_witness :
    (get_file_size
        { sink0 0 with filePoisoned := true }).1 = 0 ∧
      (signals (should_rotate fmt0 0 { opt0 with max_size := some 5 }
        { sink0 0 with filePoisoned := true } 0 7) = true ↔ 5 ≤ 7) :=
  C10_size_probe_failure_zero fmt0 0 { opt0 with max_size := some 5 }
    { sink0 0 with filePoisoned := true } 0 7 5 rfl (Or.inl rfl) rfl rfl

namespace Locks

/-- An uninterrupted `log` call always ends consistent: its decision, its
swap and its write act on the same handle state. -/
lemma steps3_consistent (g : GState) (t : TState) (h : t.pc = 0) :
    consistent (steps3 g t).2 = true := by
  obtain ⟨pc, nb, sf, sb, wr, mn, wt⟩ := t
  dsimp only at h
  subst h
  cases hw : nb != g.bucketVal <;>
    simp [steps3, step, consistent, hw]

/-- Running the schedule that serializes thread 1 before thread 2 is the
composition of two uninterrupted calls. -/
lemma run_serial_fst (s : Sys) :
    run s [false, false, false, true, true, true] =
      { g := (steps3 (steps3 s.g s.t1).1 s.t2).1,
        t1 := (steps3 s.g s.t1).2,
        t2 := (steps3 (steps3 s.g s.t1).1 s.t2).2 } := rfl

/-- Running the schedule that serializes thread 2 before thread 1 is the
composition of two uninterrupted calls. -/
lemma run_serial_snd (s : Sys) :
    run s [true, true, true, false, false, false] =
      { g := (steps3 (steps3 s.g s.t2).1 s.t1).1,
        t1 := (steps3 (steps3 s.g s.t2).1 s.t1).2,
        t2 := (steps3 s.g s.t2).2 } := rfl

end Locks

/-- C1 counterexample: the claim that the locking makes every interleaving
consistent is false on the code. The source guards the handle and the
bucket with two separate mutexes and `log` releases them between its three
critical sections, so in the interleaving where thread 1 checks rotation,
thread 2 then rotates and writes, and thread 1 finally writes, thread 1
writes through a fresh handle while its decision used the stale handle and
bucket — exactly the stale pairing the claim rules out. -/
theorem C1_single_lock_counterexample :
    Locks.consistent ((Locks.run (Locks.initSys 0 1)
      [false, true, true, true, false, false]).t1) = false := by decide

/-- C1 amended: each of the three lock-scoped sections of `log` (rotation
check, swap of handle and bucket, write) is individually atomic, but the
handle and bucket sit behind two separate locks that are released between
sections, so decision/handle consistency holds only when whole `log` calls
do not interleave: under either serial schedule of two callers, both
callers end consistent, whatever buckets their wall clocks map to. -/
theorem C1_two_locks_serial_consistent (nb1 nb2 : Nat) :
    (Locks.consistent ((Locks.run (Locks.initSys nb1 nb2)
        [false, false, false, true, true, true]).t1) = true ∧
      Locks.consistent ((Locks.run (Locks.initSys nb1 nb2)
        [false, false, false, true, true, true]).t2) = true) ∧
    (Locks.consistent ((Locks.run (Locks.initSys nb1 nb2)
        [true, true, true, false, false, false]).t1) = true ∧
      Locks.consistent ((Locks.run (Locks.initSys nb1 nb2)
        [true, true, true, false, false, false]).t2) = true) := by
  rw [Locks.run_serial_fst, Locks.run_serial_snd]
  exact ⟨⟨Locks.steps3_consistent _ _ rfl, Locks.steps3_consistent _ _ rfl⟩,
    ⟨Locks.steps3_consistent _ _ rfl, Locks.steps3_consistent _ _ rfl⟩⟩

/-- C1 amended witness: the serial schedules are consistent at concrete
buckets 0 and 1. -/
theorem C1_two_locks_serial_consistent_witness :
    Locks.consistent ((Locks.run (Locks.initSys 0 1)
      [false, false, false, true, true, true]).t1) = true :=
  (C1_two_locks_serial_consistent 0 1).1.1

/-!  Lemmas about the unique-file allocation loop. -/

/-- A successful run of the allocation loop returns a path that did not
exist before the call and adds exactly that path to the filesystem. -/
lemma cufLoop_ok (log_dir filename : FsPath) (fuel : Nat) :
    ∀ (counter : Nat) (fs : FS) (p : FsPath) (fs' : FS),
      cufLoop log_dir filename counter fuel fs = .ok (p, fs') →
      p ∉ fs.files ∧ fs'.files = p :: fs.files := by
  induction fuel with
  | zero =>
    intro counter fs p fs' h
    simp [cufLoop] at h
  | succ fuel ih =>
    intro counter fs p fs' h
    unfold cufLoop at h
    by_cases hb : uniqueCandidate log_dir filename counter ∈ fs.badPaths
    · simp [createNew, hb] at h
    · by_cases he : uniqueCandidate log_dir filename counter ∈ fs.files
      · simp only [createNew, hb, if_false, he, if_true] at h
        exact ih (counter + 1) fs p fs' h
      · simp [createNew, hb, he] at h
        obtain ⟨rfl, rfl⟩ := h
        exact ⟨he, rfl⟩

/-- A successful allocation returns a fresh path and adds it. -/
lemma create_unique_file_ok (log_dir filename : FsPath) (fs : FS)
    (p : FsPath) (fs' : FS)
    (h : create_unique_file log_dir filename fs = .ok (p, fs')) :
    p ∉ fs.files ∧ fs'.files = p :: fs.files :=
  cufLoop_ok log_dir filename _ 0 fs p fs' h

/-- One loop iteration on a colliding candidate retries with the next
counter. -/
lemma cufLoop_collision (log_dir filename : FsPath) (counter fuel : Nat)
    (fs : FS)
    (hb : uniqueCandidate log_dir filename counter ∉ fs.badPaths)
    (he : uniqueCandidate log_dir filename counter ∈ fs.files) :
    cufLoop log_dir filename counter (fuel + 1) fs =
      cufLoop log_dir filename (counter + 1) fuel fs := by
  have hcn : createNew (uniqueCandidate log_dir filename counter) fs =
      .error .alreadyExists := by
    simp [createNew, hb, he]
  conv_lhs => rw [cufLoop]
  rw [hcn]

/-- One loop iteration on a fresh candidate creates it and returns. -/
lemma cufLoop_fresh (log_dir filename : FsPath) (counter fuel : Nat) (fs : FS)
    (hb : uniqueCandidate log_dir filename counter ∉ fs.badPaths)
    (he : uniqueCandidate log_dir filename counter ∉ fs.files) :
    cufLoop log_dir filename counter (fuel + 1) fs =
      .ok (uniqueCandidate log_dir filename counter,
        { fs with files := uniqueCandidate log_dir filename counter :: fs.files }) := by
  unfold cufLoop
  simp [createNew, hb, he]

/-- The first candidate is the desired filename itself. -/
lemma uniqueCandidate_zero (log_dir filename : FsPath) :
    uniqueCandidate log_dir filename 0 = filename := by
  simp [uniqueCandidate]

/-- C5 counterexample: with `test.log.2024-01-01` already on disk, the
second allocation of the same desired name returns
`test.log_1.2024-01-01` — the numeric suffix goes before the dated name's
extension `.2024-01-01` — and not the spec's example `test.log.2024-01-01_1`. -/
theorem C5_suffix_example_counterexample :
    create_unique_file [] ["test.log.2024-01-01"]
        { files := [["test.log.2024-01-01"]], badPaths := [] } =
      .ok (["test.log_1.2024-01-01"],
        { files := [["test.log_1.2024-01-01"], ["test.log.2024-01-01"]],
          badPaths := [] }) ∧
      ("test.log_1.2024-01-01" : String) ≠ "test.log.2024-01-01_1" := by
  constructor
  · decide
  · decide

/-- C5 amended: in exclusive-create mode the allocator first attempts the
desired filename and, on each AlreadyExists failure, retries with an
incrementing numeric suffix inserted before the (dated) filename's
extension, so two successful calls with the same desired filename return
two distinct paths; on the spec's example the second call yields
`test.log_1.2024-01-01`. -/
theorem C5_allocator_distinct_paths :
    (∀ (log_dir filename : FsPath) (fs fs1 fs2 : FS) (p1 p2 : FsPath),
        create_unique_file log_dir filename fs = .ok (p1, fs1) →
        create_unique_file log_dir filename fs1 = .ok (p2, fs2) →
        p1 ≠ p2) ∧
      create_unique_file [] ["test.log.2024-01-01"]
          { files := [["test.log.2024-01-01"]], badPaths := [] } =
        .ok (["test.log_1.2024-01-01"],
          { files := [["test.log_1.2024-01-01"], ["test.log.2024-01-01"]],
            badPaths := [] }) := by
  constructor
  · intro log_dir filename fs fs1 fs2 p1 p2 h1 h2 hpe
    obtain ⟨hn1, hf1⟩ := create_unique_file_ok log_dir filename fs p1 fs1 h1
    obtain ⟨hn2, hf2⟩ := create_unique_file_ok log_dir filename fs1 p2 fs2 h2
    subst hpe
    exact hn2 (hf1 ▸ List.mem_cons_self p1 fs.files)
  · decide

/-- C5 amended witness: two concrete successful calls on the same desired
name return distinct paths. -/
theorem C5_allocator_distinct_paths_witness :
    (["test.log.2024-01-01"] : FsPath) ≠ ["test.log_1.2024-01-01"] :=
  C5_allocator_distinct_paths.1 [] ["test.log.2024-01-01"]
    { files := [], badPaths := [] }
    { files := [["test.log.2024-01-01"]], badPaths := [] }
    { files := [["test.log_1.2024-01-01"], ["test.log.2024-01-01"]],
      badPaths := [] }
    ["test.log.2024-01-01"] ["test.log_1.2024-01-01"]
    (by decide) (by decide)

/-- C2: the code never prunes. With `max_files = 3` configured and five
rotated files already on disk, a successful rotation leaves six files, all
five old ones still present — `max_files` is stored but never read, so the
claimed Retention Pruner never runs. -/
theorem C2_no_pruning_after_rotation :
    ∃ s' fs', rotate fmt0 0 optKeep3 (sink0 0) fs5 5 = .ok (s', fs') ∧
      fs'.files.length = 6 ∧ ∀ q ∈ fs5.files, q ∈ fs'.files := by
  refine ⟨_, _, rfl, rfl, ?_⟩
  decide

/-- C9 counterexample: with directory `logs` configured and base filename
`test.log`, the first created file is opened at the bare dated path
`test.log.P#5` relative to the working directory — it does not lie inside
`logs`, because `create_unique_file` opens the unsuffixed candidate without
joining it onto the directory. -/
theorem C9_outside_directory_counterexample :
    create_file fmt0 0 optLogsDir 5 fs0 =
      .ok (["test.log.P#5"],
        { files := [["test.log.P#5"]], badPaths := [] }) ∧
      ∀ q : FsPath, (["test.log.P#5"] : FsPath) ≠ "logs" :: q := by
  constructor
  · decide
  · intro q h
    have h1 : "test.log.P#5" = "logs" := by injection h
    exact absurd h1 (by decide)

/-- A nonzero counter's candidate is the suffixed name joined onto the
directory. -/
lemma uniqueCandidate_succ (log_dir filename : FsPath) (k : Nat)
    (hk : k ≠ 0) :
    uniqueCandidate log_dir filename k =
      log_dir ++ setFileName filename (suffixName filename k) := by
  simp [uniqueCandidate, hk]

/-- C9 amended: the first (unsuffixed) create attempt opens the file at the
base filename's own path with the formatted date — converted to local or
UTC time per the timezone mode — appended to its final segment, ignoring
the configured directory; only the suffixed retries are placed inside the
configured directory. -/
theorem C9_layout_amended :
    (∀ (fmt : String → Int → String) (loff : Int)
        (o : DailyRotateFileOptions) (t : Int) (fs : FS),
        get_filename fmt loff o.filename t o.date_pattern o.utc ∉ fs.files →
        get_filename fmt loff o.filename t o.date_pattern o.utc ∉ fs.badPaths →
        create_file fmt loff o t fs =
          .ok (setFileName o.filename
              (((fileName? o.filename).getD "log") ++ "." ++
                (if o.utc then fmt o.date_pattern t
                  else fmt o.date_pattern (t + loff))),
            { fs with files :=
                get_filename fmt loff o.filename t o.date_pattern o.utc
                  :: fs.files })) ∧
      (∀ (fmt : String → Int → String) (loff : Int)
          (o : DailyRotateFileOptions) (t : Int) (fs : FS) (d : FsPath),
          o.dirname = some d →
          get_filename fmt loff o.filename t o.date_pattern o.utc ∈ fs.files →
          get_filename fmt loff o.filename t o.date_pattern o.utc ∉ fs.badPaths →
          uniqueCandidate d
              (get_filename fmt loff o.filename t o.date_pattern o.utc) 1
            ∉ fs.files →
          uniqueCandidate d
              (get_filename fmt loff o.filename t o.date_pattern o.utc) 1
            ∉ fs.badPaths →
          ∃ rest fs', create_file fmt loff o t fs = .ok (d ++ rest, fs')) := by
  constructor
  · intro fmt loff o t fs hne hnb
    show create_file fmt loff o t fs =
      .ok (get_filename fmt loff o.filename t o.date_pattern o.utc,
        { fs with files :=
            get_filename fmt loff o.filename t o.date_pattern o.utc
              :: fs.files })
    simp only [create_file, create_unique_file]
    rw [cufLoop_fresh (o.dirname.getD [])
        (get_filename fmt loff o.filename t o.date_pattern o.utc) 0
        fs.files.length fs
        (by rw [uniqueCandidate_zero]; exact hnb)
        (by rw [uniqueCandidate_zero]; exact hne),
      uniqueCandidate_zero]
  · intro fmt loff o t fs d hdir he hnb hn1 hb1
    obtain ⟨k, hk⟩ : ∃ k, fs.files.length = k + 1 := by
      cases hf : fs.files with
      | nil => rw [hf] at he; cases he
      | cons a l => exact ⟨l.length, by simp [hf]⟩
    refine ⟨setFileName (get_filename fmt loff o.filename t o.date_pattern o.utc)
        (suffixName (get_filename fmt loff o.filename t o.date_pattern o.utc) 1),
      { fs with files := (uniqueCandidate d (get_filename fmt loff o.filename t o.date_pattern o.utc) 1) :: fs.files }, ?_⟩
    simp only [create_file, create_unique_file]
    rw [hdir]
    simp only [Option.getD_some]
    rw [hk, cufLoop_collision d
        (get_filename fmt loff o.filename t o.date_pattern o.utc) 0 (k + 1) fs
        (by rw [uniqueCandidate_zero]; exact hnb)
        (by rw [uniqueCandidate_zero]; exact he),
      cufLoop_fresh d
        (get_filename fmt loff o.filename t o.date_pattern o.utc) 1 k fs
        hb1 hn1,
      uniqueCandidate_succ d
        (get_filename fmt loff o.filename t o.date_pattern o.utc) 1 one_ne_zero]

/-- C9 amended witness: with directory `logs` configured, the first create
goes to the bare dated path. -/
theorem C9_layout_amended_witness :
    create_file fmt0 0 optLogsDir 5 fs0 =
      .ok (setFileName optLogsDir.filename
          (((fileName? optLogsDir.filename).getD "log") ++ "." ++
            (if optLogsDir.utc then fmt0 optLogsDir.date_pattern 5
              else fmt0 optLogsDir.date_pattern (5 + 0))),
        { fs0 with files := get_filename fmt0 0 optLogsDir.filename 5 optLogsDir.date_pattern optLogsDir.utc :: fs0.files }) :=
  C9_layout_amended.1 fmt0 0 optLogsDir 5 fs0 (by decide) (by decide)

/-!  State-preservation lemmas for the write path. -/

/-- The size probe changes at most the split of lines between buffer and
disk: every other component of the sink state, and the concatenated
contents, are preserved. -/
lemma get_file_size_snd (s : SinkState) :
    (get_file_size s).2.filePoisoned = s.filePoisoned ∧
    (get_file_size s).2.rotPoisoned = s.rotPoisoned ∧
    (get_file_size s).2.active.path = s.active.path ∧
    (get_file_size s).2.closed = s.closed ∧
    (get_file_size s).2.lastRotation = s.lastRotation ∧
    (get_file_size s).2.active.buf.flushFails = s.active.buf.flushFails ∧
    (get_file_size s).2.active.buf.writeFails = s.active.buf.writeFails ∧
    (get_file_size s).2.active.buf.flushedLines ++
        (get_file_size s).2.active.buf.bufLines =
      s.active.buf.flushedLines ++ s.active.buf.bufLines := by
  by_cases h1 : s.filePoisoned <;> by_cases h2 : s.active.buf.flushFails <;>
    by_cases h3 : s.active.buf.metadataFails <;>
      simp [get_file_size, h1, h2, h3]

/-- A normal return of the rotation decision preserves the sink state up to
the probe's flush: path, closed files, timestamps, flags and concatenated
contents are unchanged. -/
lemma should_rotate_ok_state (fmt : String → Int → String) (loff : Int)
    (o : DailyRotateFileOptions) (s : SinkState) (now : Int) (n : Nat)
    (b : Bool) (s₁ : SinkState)
    (h : should_rotate fmt loff o s now n = .ok (b, s₁)) :
    s₁.filePoisoned = s.filePoisoned ∧
    s₁.rotPoisoned = s.rotPoisoned ∧
    s₁.active.path = s.active.path ∧
    s₁.closed = s.closed ∧
    s₁.lastRotation = s.lastRotation ∧
    s₁.active.buf.flushFails = s.active.buf.flushFails ∧
    s₁.active.buf.writeFails = s.active.buf.writeFails ∧
    s₁.active.buf.flushedLines ++ s₁.active.buf.bufLines =
      s.active.buf.flushedLines ++ s.active.buf.bufLines := by
  by_cases hrp : s.rotPoisoned
  · simp [should_rotate, hrp] at h
  · by_cases hb : bucketStr fmt loff o s.lastRotation = bucketStr fmt loff o now
    · cases hms : o.max_size with
      | none =>
        simp [should_rotate, hrp, hb, hms] at h
        obtain ⟨h1, h2⟩ := h
        subst h2
        exact ⟨rfl, rfl, rfl, rfl, rfl, rfl, rfl, rfl⟩
      | some m =>
        simp [should_rotate, hrp, hb, hms] at h
        obtain ⟨h1, h2⟩ := h
        subst h2
        exact get_file_size_snd s
    · simp [should_rotate, hrp, hb] at h
      obtain ⟨h1, h2⟩ := h
      subst h2
      exact ⟨rfl, rfl, rfl, rfl, rfl, rfl, rfl, rfl⟩

/-- C4: for an entry whose arrival triggers rotation, the rotation check
runs before the write: `log` allocates the new file, moves the old handle's
full contents (buffered lines flushed on drop) into the closed files
unchanged, and writes the triggering entry as the sole line of the new
file — nothing is dropped or reordered. Stated under a healthy sink:
unpoisoned locks, working flush, and a successful allocation. -/
theorem C4_triggering_entry_lands_in_new_file
    (fmt : String → Int → String) (loff : Int) (o : DailyRotateFileOptions)
    (s s₁ : SinkState) (fs fs' : FS) (now1 now2 : Int) (msg : String)
    (p : FsPath)
    (hrp : s.rotPoisoned = false) (hfp : s.filePoisoned = false)
    (hff : s.active.buf.flushFails = false)
    (hsig : should_rotate fmt loff o s now1 ((msg ++ "\n").length) =
      .ok (true, s₁))
    (hcreate : create_file fmt loff o now2 fs = .ok (p, fs')) :
    log fmt loff o s fs now1 now2 msg =
      .ok ({ filePoisoned := false, rotPoisoned := false,
             active := { path := p, buf := { flushedLines := [], bufLines := [msg], flushFails := false, metadataFails := false, writeFails := false } },
             lastRotation := now2,
             closed := s.closed ++ [(s.active.path, s.active.buf.flushedLines ++ s.active.buf.bufLines)] },
        fs', []) := by
  obtain ⟨e1, e2, e3, e4, e5, e6, e7, e8⟩ :=
    should_rotate_ok_state fmt loff o s now1 ((msg ++ "\n").length) true s₁ hsig
  simp only [log]
  rw [hsig]
  simp [rotate, hcreate, closeFile, FileState.fresh,
    e1, e2, e3, e4, e6, e8, hfp, hrp, hff]

/-- C4 witness: a concrete bucket change makes the entry `hello` land alone
in the freshly created file while the old file is closed unchanged. -/
theorem C4_triggering_entry_lands_in_new_file_witness :
    log fmt0 0 opt0 (sink0 0) fs0 1 2 "hello" =
      .ok ({ filePoisoned := false, rotPoisoned := false,
             active := { path := ["test.log.P#2"], buf := { flushedLines := [], bufLines := ["hello"], flushFails := false, metadataFails := false, writeFails := false } },
             lastRotation := 2,
             closed := [(["test.log.P#0"], [])] },
        { files := [["test.log.P#2"]], badPaths := [] }, []) :=
  C4_triggering_entry_lands_in_new_file fmt0 0 opt0 (sink0 0) (sink0 0)
    fs0 { files := [["test.log.P#2"]], badPaths := [] } 1 2 "hello"
    ["test.log.P#2"] rfl rfl rfl (by decide) (by decide)

/-- C6 counterexample: a runtime rotation failure is not reported to a
diagnostic channel — it panics. With the dated path `test.log.P#2` failing
to create, the `log` call that triggers rotation propagates the panic
`Failed to rotate log file` into the caller. -/
theorem C6_rotation_failure_panic_counterexample :
    log fmt0 0 opt0 (sink0 0) fsBad2 1 2 "hello" =
      .panic "Failed to rotate log file" := by decide

/-- C6 amended: construction fails with the explicit error
`Filename is required` when the base filename is absent, but panics when
the initial file cannot be created; runtime write failures are reported to
stderr and not propagated, while a rotation whose file creation fails
panics. -/
theorem C6_error_surface_amended :
    (∀ (fmt : String → Int → String) (loff : Int)
        (b : DailyRotateFileBuilder) (fs : FS) (now : Int),
        b.filename = none →
        build fmt loff b fs now = .ok (.error "Filename is required")) ∧
    (∀ (fmt : String → Int → String) (loff : Int)
        (b : DailyRotateFileBuilder) (fs : FS) (now : Int) (f : FsPath)
        (e : IOErr),
        b.filename = some f →
        create_file fmt loff (buildOptions b f) now fs = .error e →
        build fmt loff b fs now = .panic "Failed to create initial log file") ∧
    (∀ (fmt : String → Int → String) (loff : Int)
        (o : DailyRotateFileOptions) (s s₁ : SinkState) (fs : FS)
        (now1 now2 : Int) (msg : String),
        should_rotate fmt loff o s now1 ((msg ++ "\n").length) =
          .ok (false, s₁) →
        s₁.filePoisoned = false → s₁.active.buf.writeFails = true →
        log fmt loff o s fs now1 now2 msg =
          .ok (s₁, fs, ["Failed to write log"])) ∧
    (∀ (fmt : String → Int → String) (loff : Int)
        (o : DailyRotateFileOptions) (s s₁ : SinkState) (fs : FS)
        (now1 now2 : Int) (msg : String) (e : IOErr),
        should_rotate fmt loff o s now1 ((msg ++ "\n").length) =
          .ok (true, s₁) →
        create_file fmt loff o now2 fs = .error e →
        log fmt loff o s fs now1 now2 msg =
          .panic "Failed to rotate log file") := by
  refine ⟨?_, ?_, ?_, ?_⟩
  · intro fmt loff b fs now h
    simp [build, h]
  · intro fmt loff b fs now f e h1 h2
    simp [build, h1, new, h2]
  · intro fmt loff o s s₁ fs now1 now2 msg h1 h2 h3
    simp only [log]
    rw [h1]
    simp [h2, h3]
  · intro fmt loff o s s₁ fs now1 now2 msg e h1 h2
    simp only [log]
    rw [h1]
    simp [rotate, h2]

/-- C6 amended witness: a builder without filename errors explicitly; a
rotation hitting a failing path panics. -/
theorem C6_error_surface_amended_witness :
    build fmt0 0 DailyRotateFileBuilder.new fs0 0 =
        .ok (.error "Filename is required") ∧
      log fmt0 0 opt0 (sink0 0) fsBad2 1 2 "hi" =
        .panic "Failed to rotate log file" :=
  ⟨C6_error_surface_amended.1 fmt0 0 DailyRotateFileBuilder.new fs0 0 rfl,
    C6_error_surface_amended.2.2.2 fmt0 0 opt0 (sink0 0) (sink0 0) fsBad2 1 2
      "hi" .other (by decide) (by decide)⟩

/-- C7 counterexample: a lock-acquisition failure is not always non-fatal —
`flush` unwraps the file lock, so on a poisoned lock the public `flush`
operation panics instead of emitting a diagnostic and dropping the call. -/
theorem C7_poisoned_flush_panics_counterexample :
    flush { sink0 0 with filePoisoned := true } = .panic "lock poisoned" := by
  decide

/-- C7 amended: only the write-step file-lock acquisition in `log` treats
failure as non-fatal (stderr diagnostic, entry dropped); `flush` panics on
a poisoned file lock, and a poisoned rotation lock makes `should_rotate` —
and hence `log` — panic. -/
theorem C7_lock_failure_amended :
    (∀ (fmt : String → Int → String) (loff : Int)
        (o : DailyRotateFileOptions) (s s₁ : SinkState) (fs : FS)
        (now1 now2 : Int) (msg : String),
        should_rotate fmt loff o s now1 ((msg ++ "\n").length) =
          .ok (false, s₁) →
        s₁.filePoisoned = true →
        log fmt loff o s fs now1 now2 msg =
          .ok (s₁, fs, ["Failed to acquire file lock"])) ∧
    (∀ s : SinkState, s.filePoisoned = true →
        flush s = .panic "lock poisoned") ∧
    (∀ (fmt : String → Int → String) (loff : Int)
        (o : DailyRotateFileOptions) (s : SinkState) (now : Int) (n : Nat),
        s.rotPoisoned = true →
        should_rotate fmt loff o s now n = .panic "lock poisoned") ∧
    (∀ (fmt : String → Int → String) (loff : Int)
        (o : DailyRotateFileOptions) (s : SinkState) (fs : FS)
        (now1 now2 : Int) (msg : String),
        s.rotPoisoned = true →
        log fmt loff o s fs now1 now2 msg = .panic "lock poisoned") := by
  refine ⟨?_, ?_, ?_, ?_⟩
  · intro fmt loff o s s₁ fs now1 now2 msg h1 h2
    simp only [log]
    rw [h1]
    simp [h2]
  · intro s h
    simp [flush, h]
  · intro fmt loff o s now n h
    simp [should_rotate, h]
  · intro fmt loff o s fs now1 now2 msg h
    simp [log, should_rotate, h]

/-- C7 amended witness: with a poisoned file lock and no rotation signal,
`log` degrades with a diagnostic while `flush` panics. -/
theorem C7_lock_failure_amended_witness :
    log fmt0 0 opt0 { sink0 0 with filePoisoned := true } fs0 0 0 "x" =
        .ok ({ sink0 0 with filePoisoned := true }, fs0,
          ["Failed to acquire file lock"]) ∧
      flush { sink0 0 with filePoisoned := true } = .panic "lock poisoned" :=
  ⟨C7_lock_failure_amended.1 fmt0 0 opt0 { sink0 0 with filePoisoned := true }
      { sink0 0 with filePoisoned := true } fs0 0 0 "x" (by decide) rfl,
    C7_lock_failure_amended.2.1 { sink0 0 with filePoisoned := true } rfl⟩

/-- C8: `log` appends the entry's message (each stored line denoting the
rendered text plus its line terminator) to the active buffer and returns
normally; a failed `writeln!` is only reported on stderr and the call
degrades silently; `flush` instead returns an explicit error to the caller
on an I/O failure. -/
theorem C8_write_silent_flush_explicit :
    (∀ (fmt : String → Int → String) (loff : Int)
        (o : DailyRotateFileOptions) (s s₁ : SinkState) (fs : FS)
        (now1 now2 : Int) (msg : String),
        should_rotate fmt loff o s now1 ((msg ++ "\n").length) =
          .ok (false, s₁) →
        s₁.filePoisoned = false → s₁.active.buf.writeFails = false →
        log fmt loff o s fs now1 now2 msg =
          .ok ({ s₁ with active := { s₁.active with buf :=
              { s₁.active.buf with
                bufLines := s₁.active.buf.bufLines ++ [msg] } } },
            fs, [])) ∧
    (∀ (fmt : String → Int → String) (loff : Int)
        (o : DailyRotateFileOptions) (s s₁ : SinkState) (fs : FS)
        (now1 now2 : Int) (msg : String),
        should_rotate fmt loff o s now1 ((msg ++ "\n").length) =
          .ok (false, s₁) →
        s₁.filePoisoned = false → s₁.active.buf.writeFails = true →
        log fmt loff o s fs now1 now2 msg =
          .ok (s₁, fs, ["Failed to write log"])) ∧
    (∀ s : SinkState, s.filePoisoned = false →
        s.active.buf.flushFails = true →
        flush s = .ok (s, .error "Failed to flush: io error")) := by
  refine ⟨?_, ?_, ?_⟩
  · intro fmt loff o s s₁ fs now1 now2 msg h1 h2 h3
    simp only [log]
    rw [h1]
    simp [h2, h3]
  · intro fmt loff o s s₁ fs now1 now2 msg h1 h2 h3
    simp only [log]
    rw [h1]
    simp [h2, h3]
  · intro s h1 h2
    simp [flush, h1, h2]

/-- C8 witness: a concrete `log` appends its message to the buffer and a
concrete failing `flush` returns the explicit error. -/
theorem C8_write_silent_flush_explicit_witness :
    log fmt0 0 opt0 (sink0 0) fs0 0 0 "hi" =
        .ok ({ sink0 0 with active := { (sink0 0).active with buf :=
            { (sink0 0).active.buf with
              bufLines := (sink0 0).active.buf.bufLines ++ ["hi"] } } },
          fs0, []) ∧
      flush { sink0 0 with active := { (sink0 0).active with buf :=
          { (sink0 0).active.buf with flushFails := true } } } =
        .ok ({ sink0 0 with active := { (sink0 0).active with buf :=
            { (sink0 0).active.buf with flushFails := true } } },
          .error "Failed to flush: io error") :=
  ⟨C8_write_silent_flush_explicit.1 fmt0 0 opt0 (sink0 0) (sink0 0) fs0 0 0
      "hi" (by decide) rfl rfl,
    C8_write_silent_flush_explicit.2.2
      { sink0 0 with active := { (sink0 0).active with buf :=
          { (sink0 0).active.buf with flushFails := true } } } rfl rfl⟩

end DRF
